import Mathlib

/-!
Shallow embedding of the slide_video_generator repository (TypeScript) used to
check the natural-language specification against the code.

Modelled source files:
* `src/server/services/textSegmentation.ts` (namespace `TextSegmentation`)
* `src/server/services/slideGenerator.ts`   (namespace `SlideGenerator`)
* `src/server/services/pptxGenerator.ts`    (namespace `PptxGenerator`)

Conventions of the embedding:
* JavaScript `number` is modelled by `ℚ` (all arithmetic the claims touch is
  exact decimal arithmetic on small values; floats are not needed).
* `Math.round x` is `⌊x + 1/2⌋` (round half toward +∞), `Math.floor` is `⌊·⌋`.
* JavaScript string `.length` (UTF-16 code units) is modelled by
  `String.length` (scalar values); the two agree on all texts used here,
  which contain only BMP characters.
* `x || d` on strings/numbers is modelled explicitly (empty string and 0 are
  falsy); `x ?? d`-style reads of possibly-absent fields use `Option`.
-/

namespace TextSegmentation

/-- Embeds `interface Segment` of textSegmentation.ts (`start`/`end` in seconds). -/
structure Segment where
  start : ℤ
  «end» : ℤ
  text : String
  deriving DecidableEq, Repr, Inhabited

/-- Embeds `const CHARS_PER_MINUTE = 320` — average Japanese reading speed. -/
def CHARS_PER_MINUTE : ℚ := 320

/-- JavaScript `Math.round`: round half toward positive infinity. -/
def jsRound (q : ℚ) : ℤ := ⌊q + 1/2⌋

/-- Embeds `(charCount / CHARS_PER_MINUTE) * 60` with `charCount = text.length`. -/
def durationSeconds (text : String) : ℚ :=
  (text.length : ℚ) / CHARS_PER_MINUTE * 60

/-- Embeds `Math.max(3, Math.min(60, Math.round(durationSeconds)))`. -/
def duration (text : String) : ℤ :=
  max 3 (min 60 (jsRound (durationSeconds text)))

/-- The loop body of `assignTimestamps`, with the running `currentTime`
accumulator made explicit. -/
def assignTimestampsFrom : ℤ → List String → List Segment
  | _, [] => []
  | t, text :: rest =>
      { start := t, «end» := t + duration text, text := text } ::
        assignTimestampsFrom (t + duration text) rest

/-- Embeds `assignTimestamps` of textSegmentation.ts: `currentTime` starts at 0. -/
def assignTimestamps (texts : List String) : List Segment :=
  assignTimestampsFrom 0 texts

end TextSegmentation

namespace SlideGenerator

/-- Embeds `steps` entry (`{ number, title, description }`). -/
structure Step where
  number : String
  title : String
  description : String
  deriving DecidableEq, Repr

/-- Embeds `timelineItems` entry (`{ year, description }`). -/
structure TimelineItem where
  year : String
  description : String
  deriving DecidableEq, Repr

/-- Embeds `networkNodes` entry (`{ id, label }`). -/
structure NetworkNode where
  id : String
  label : String
  deriving DecidableEq, Repr

/-- Embeds `networkEdges` entry (`{ from, to }`). -/
structure NetworkEdge where
  «from» : String
  «to» : String
  deriving DecidableEq, Repr

/-- Embeds `bubbles[].size` union type `'small' | 'medium' | 'large'`. -/
inductive BubbleSize where
  | small | medium | large
  deriving DecidableEq, Repr

/-- Embeds `bubbles` entry (`{ label, size, overlap? }`). -/
structure Bubble where
  label : String
  size : BubbleSize
  overlap : Option (List String) := none
  deriving DecidableEq, Repr

/-- Embeds `arrowSteps` entry (`{ label, description? }`). -/
structure ArrowStep where
  label : String
  description : Option String := none
  deriving DecidableEq, Repr

/-- Embeds `formula` field (`{ left, operator, right, result }`). -/
structure Formula where
  left : String
  operator : String
  right : String
  result : String
  deriving DecidableEq, Repr

/-- The `Slide` interface shared by slideGenerator.ts and pptxGenerator.ts.
`layoutType` is a `String` because at runtime the builder copies whatever
tag the parsed JSON carries (the TS union type is not enforced on parsed
data).  Times are in seconds (`ℚ` models the JS `number`). -/
structure Slide where
  id : String
  layoutType : String
  title : String
  content : List String
  emphasisNumber : Option String := none
  emphasisLabel : Option String := none
  leftColumn : Option (List String) := none
  rightColumn : Option (List String) := none
  steps : Option (List Step) := none
  timelineItems : Option (List TimelineItem) := none
  networkNodes : Option (List NetworkNode) := none
  networkEdges : Option (List NetworkEdge) := none
  bubbles : Option (List Bubble) := none
  arrowSteps : Option (List ArrowStep) := none
  formula : Option Formula := none
  notes : String
  startTime : ℚ
  endTime : ℚ
  duration : ℚ
  deriving DecidableEq, Repr

/-- A raw slide object as it comes out of `JSON.parse`: every field may be
absent.  Fields the builder copies verbatim keep their `Option`. -/
structure RawSlide where
  layoutType : Option String := none
  title : Option String := none
  content : Option (List String) := none
  emphasisNumber : Option String := none
  emphasisLabel : Option String := none
  leftColumn : Option (List String) := none
  rightColumn : Option (List String) := none
  steps : Option (List Step) := none
  timelineItems : Option (List TimelineItem) := none
  networkNodes : Option (List NetworkNode) := none
  networkEdges : Option (List NetworkEdge) := none
  bubbles : Option (List Bubble) := none
  arrowSteps : Option (List ArrowStep) := none
  formula : Option Formula := none
  notes : Option String := none
  startTime : Option ℚ := none
  endTime : Option ℚ := none
  deriving DecidableEq, Repr

/-- JavaScript `v || d` where `v` is a possibly-absent string: the empty
string is falsy. -/
def jsOrString (v : Option String) (d : String) : String :=
  match v with
  | some s => if s = "" then d else s
  | none => d

/-- JavaScript `v || d` where `v` is a possibly-absent number: `0` is falsy
(`NaN` is not modelled; `ℚ` has no `NaN`). -/
def jsOrNum (v : Option ℚ) (d : ℚ) : ℚ :=
  match v with
  | some x => if x = 0 then d else x
  | none => d

/-- The per-slide object literal shared by `generateWithGemini` and
`generateWithGPT` (lines 185–205 and 244–264): builds a `Slide` from a raw
parsed slide.  `newId` stands for the `nanoid(8)` value generated for this
slide. -/
def buildSlide (newId : String) (slide : RawSlide) : Slide :=
  { id := newId
    layoutType := jsOrString slide.layoutType "bullet-points"
    title := jsOrString slide.title "タイトル"
    content := slide.content.getD []
    emphasisNumber := slide.emphasisNumber
    emphasisLabel := slide.emphasisLabel
    leftColumn := slide.leftColumn
    rightColumn := slide.rightColumn
    steps := slide.steps
    timelineItems := slide.timelineItems
    networkNodes := slide.networkNodes
    networkEdges := slide.networkEdges
    bubbles := slide.bubbles
    arrowSteps := slide.arrowSteps
    formula := slide.formula
    notes := jsOrString slide.notes ""
    startTime := jsOrNum slide.startTime 0
    endTime := jsOrNum slide.endTime 0
    duration := max 1 (jsOrNum slide.endTime 0 - jsOrNum slide.startTime 0) }

/-- Embeds `getMockSlides` (slideGenerator.ts lines 278–332).  The four `nanoid(8)`
calls are modelled by the explicit id arguments; everything else is the
literal data of the source. -/
def getMockSlides (id0 id1 id2 id3 : String) : List Slide :=
  [ { id := id0
      layoutType := "title"
      title := "人工知能の基礎"
      content := []
      notes := "オープニングタイトル"
      startTime := 0
      endTime := 15
      duration := 15 },
    { id := id1
      layoutType := "data-emphasis"
      title := "AI市場の成長"
      content := ["急速に拡大するAI市場", "2030年までの予測"]
      emphasisNumber := some "1.8兆"
      emphasisLabel := some "ドル規模"
      notes := "データ強調レイアウト"
      startTime := 15
      endTime := 30
      duration := 15 },
    { id := id2
      layoutType := "three-columns"
      title := "AIの3つの柱"
      content := []
      steps := some
        [ { number := "01", title := "機械学習", description := "データから学習" },
          { number := "02", title := "深層学習", description := "ニューラルネットワーク" },
          { number := "03", title := "生成AI", description := "コンテンツ生成" } ]
      notes := "3ステップレイアウト"
      startTime := 30
      endTime := 45
      duration := 15 },
    { id := id3
      layoutType := "bullet-points"
      title := "まとめ"
      content := ["AIは私たちの生活を変革している", "適切な活用が成功の鍵", "継続的な学習が重要"]
      notes := "クロージング"
      startTime := 45
      endTime := 60
      duration := 15 } ]

/-- The parsed JSON document: `parsed.slides` may be absent. -/
structure ParsedResponse where
  slides : Option (List RawSlide) := none
  deriving DecidableEq, Repr

/-- Outcome of `text.match(/\x7b[\s\S]*\x7d/)` + `JSON.parse` on the model
response in `generateWithGemini` (lines 178–184):
* `noJson`: the regexp found no JSON-looking substring;
* `parseError`: `JSON.parse` threw (caught by the surrounding try/catch);
* `parsed`: parsing succeeded. -/
inductive GeminiResponse where
  | noJson
  | parseError
  | parsed (p : ParsedResponse)
  deriving DecidableEq, Repr

/-- The response handling of `generateWithGemini` (lines 178–209): on
`noJson` or on a parse exception the function returns `getMockSlides()`;
otherwise it maps the builder over `parsed.slides || []`.  `idGen i` stands
for the `nanoid(8)` value generated for the i-th built slide (and
`idGen 0..3` for the ids inside a mock deck). -/
def geminiHandleResponse (idGen : ℕ → String) (r : GeminiResponse) : List Slide :=
  match r with
  | .noJson => getMockSlides (idGen 0) (idGen 1) (idGen 2) (idGen 3)
  | .parseError => getMockSlides (idGen 0) (idGen 1) (idGen 2) (idGen 3)
  | .parsed p => (p.slides.getD []).enum.map (fun is => buildSlide (idGen is.1) is.2)

/-- A slide with its random id erased, for stating which part of the mock
deck is call-independent. -/
def eraseId (s : Slide) : Slide := { s with id := "" }

end SlideGenerator

namespace PptxGenerator

open SlideGenerator

/-- The `DESIGN.colors` record of pptxGenerator.ts (second half of the
file, lines 228–251). -/
structure Colors where
  background : String
  textPrimary : String
  textSecondary : String
  accent : String
  lightGray : String
  mediumGray : String
  deriving DecidableEq, Repr

def DESIGNcolors : Colors :=
  { background := "FFFFFF"
    textPrimary := "000000"
    textSecondary := "333333"
    accent := "000000"
    lightGray := "EEEEEE"
    mediumGray := "CCCCCC" }

/-- A drawing primitive emitted on a pptx slide.  Only the fields the
specification talks about are kept: the text/shape kind, position
(`x y w h` in inches) and colors.  `shape` covers `addShape` (`fill` is
`fill.color` when given, `lineColor` is `line.color` when given); `text`
covers `addText` with its font color. -/
inductive Prim where
  | text (content : String) (x y w h : ℚ) (color : String)
  | shape (kind : String) (x y w h : ℚ) (fill : Option String) (lineColor : Option String)
  deriving DecidableEq, Repr

/-- Embeds `renderTitleSlide` (lines 340–353). -/
def renderTitleSlide (data : Slide) : List Prim :=
  [.text data.title 0.5 2 9 1.5 DESIGNcolors.textPrimary]

/-- Embeds `renderDataEmphasisSlide` (lines 355–415). -/
def renderDataEmphasisSlide (data : Slide) : List Prim :=
  [.text data.title 0.5 0.5 9 0.8 DESIGNcolors.textPrimary]
  ++ (if data.content.length > 0 then
        [.text (String.intercalate "\n" data.content) 0.5 1.8 4.5 2.5 DESIGNcolors.textSecondary]
      else [])
  ++ [.shape "line" 5.2 1.5 0 3 none (some DESIGNcolors.lightGray)]
  ++ (match data.emphasisNumber with
      | some n => if n = "" then [] else [.text n 5.5 1.5 4 2 DESIGNcolors.textPrimary]
      | none => [])
  ++ (match data.emphasisLabel with
      | some l => if l = "" then [] else [.text l 5.5 3.5 4 0.5 DESIGNcolors.textSecondary]
      | none => [])

/-- Embeds `renderThreeColumnsSlide` (lines 417–472). -/
def renderThreeColumnsSlide (data : Slide) : List Prim :=
  [.text data.title 0.5 0.5 9 0.8 DESIGNcolors.textPrimary]
  ++ (data.steps.getD []).enum.flatMap (fun is =>
      let x : ℚ := 0.8 + is.1 * (2.8 + 0.3)
      [ .text is.2.number x 1.5 2.8 1.2 DESIGNcolors.lightGray,
        .text is.2.title x 2.7 2.8 0.6 DESIGNcolors.textPrimary,
        .text is.2.description x 3.3 2.8 1 DESIGNcolors.textSecondary ])

/-- Embeds `renderTwoColumnsSlide` (lines 474–542). -/
def renderTwoColumnsSlide (data : Slide) : List Prim :=
  [.text data.title 0.5 0.5 9 0.8 DESIGNcolors.textPrimary,
   .shape "line" 5 1.5 0 3.2 none (some DESIGNcolors.accent),
   .text "課題" 0.5 1.3 4.2 0.5 DESIGNcolors.textSecondary]
  ++ (data.leftColumn.getD []).enum.map (fun is =>
      .text ("• " ++ is.2) 0.5 (1.9 + is.1 * 0.7) 4.2 0.6 DESIGNcolors.textSecondary)
  ++ [.text "解決策" 5.3 1.3 4.2 0.5 DESIGNcolors.textPrimary]
  ++ (data.rightColumn.getD []).enum.map (fun is =>
      .text ("• " ++ is.2) 5.3 (1.9 + is.1 * 0.7) 4.2 0.6 DESIGNcolors.textPrimary)

/-- Embeds `renderTimelineSlide` (lines 544–595). -/
def renderTimelineSlide (data : Slide) : List Prim :=
  [.text data.title 0.5 0.5 9 0.8 DESIGNcolors.textPrimary]
  ++ (data.timelineItems.getD []).enum.flatMap (fun is =>
      let y : ℚ := 1.5 + is.1 * 1.1
      [ .text is.2.year 0.5 y 2.5 0.9 DESIGNcolors.textPrimary,
        .shape "line" 3.2 (y + 0.1) 0 0.7 none (some DESIGNcolors.lightGray),
        .text is.2.description 3.5 y 6 0.9 DESIGNcolors.textSecondary ])

/-- Embeds `renderBulletPointsSlide` (lines 597–621). -/
def renderBulletPointsSlide (data : Slide) : List Prim :=
  [.text data.title 0.5 0.5 9 1 DESIGNcolors.textPrimary]
  ++ data.content.enum.map (fun is =>
      .text ("• " ++ is.2) 0.8 (1.8 + is.1 * 0.9) 8.4 0.8 DESIGNcolors.textSecondary)

/-- The circle-placement of `renderNetworkDiagramSlide` (lines 650–654):
center of the node at index `idx` among `n` nodes.  `jsCos`, `jsSin` and
`jsPi` model `Math.cos`, `Math.sin` and `Math.PI`. -/
def nodeCenter (jsCos jsSin : ℚ → ℚ) (jsPi : ℚ) (n idx : ℕ) : ℚ × ℚ :=
  let angle : ℚ := 2 * jsPi * idx / n - jsPi / 2
  (5 + 1.8 * jsCos angle, 2.8 + 1.8 * jsSin angle)

/-- The `nodePositions` record of `renderNetworkDiagramSlide`: assignment
`nodePositions[node.id] = …` lets a later node with the same id overwrite
an earlier one, so lookup scans the reversed index-order. -/
def lookupPos (jsCos jsSin : ℚ → ℚ) (jsPi : ℚ) (nodes : List NetworkNode)
    (nid : String) : Option (ℚ × ℚ) :=
  ((nodes.enum.map (fun inode =>
      (inode.2.id, nodeCenter jsCos jsSin jsPi nodes.length inode.1))).reverse).lookup nid

/-- The (ellipse, label) pair emitted for one node. -/
def networkNodePrims (jsCos jsSin : ℚ → ℚ) (jsPi : ℚ) (n : ℕ)
    (inode : ℕ × NetworkNode) : List Prim :=
  let c := nodeCenter jsCos jsSin jsPi n inode.1
  [ .shape "ellipse" (c.1 - 0.5) (c.2 - 0.3) 1 0.6
      (some DESIGNcolors.background) (some DESIGNcolors.textPrimary),
    .text inode.2.label (c.1 - 0.6) (c.2 - 0.2) 1.2 0.4 DESIGNcolors.textPrimary ]

/-- The line emitted for one edge, when both endpoints are found
(lines 682–694); `none` when an endpoint id is unknown (edge skipped). -/
def networkEdgeLine (jsCos jsSin : ℚ → ℚ) (jsPi : ℚ) (nodes : List NetworkNode)
    (e : NetworkEdge) : Option Prim :=
  match lookupPos jsCos jsSin jsPi nodes e.from, lookupPos jsCos jsSin jsPi nodes e.to with
  | some f, some t =>
      some (.shape "line" f.1 f.2 (t.1 - f.1) (t.2 - f.2) none (some DESIGNcolors.mediumGray))
  | _, _ => none

/-- Embeds `renderNetworkDiagramSlide` (lines 628–695). -/
def renderNetworkDiagramSlide (jsCos jsSin : ℚ → ℚ) (jsPi : ℚ) (data : Slide) : List Prim :=
  let nodes := data.networkNodes.getD []
  let edges := data.networkEdges.getD []
  [.text data.title 0.5 0.3 9 0.7 DESIGNcolors.textPrimary]
  ++ nodes.enum.flatMap (networkNodePrims jsCos jsSin jsPi nodes.length)
  ++ edges.filterMap (networkEdgeLine jsCos jsSin jsPi nodes)

/-- Embeds `sizeMap` of `renderBubbleChartSlide` (line 718). -/
def bubbleSizeMap : BubbleSize → ℚ
  | .large => 2.5
  | .medium => 1.8
  | .small => 1.2

/-- Embeds `renderBubbleChartSlide` (lines 700–751). -/
def renderBubbleChartSlide (data : Slide) : List Prim :=
  let bubbles := data.bubbles.getD []
  [.text data.title 0.5 0.3 9 0.7 DESIGNcolors.textPrimary]
  ++ bubbles.enum.flatMap (fun ib =>
      let size := bubbleSizeMap ib.2.size
      let x : ℚ := 5 + ((ib.1 : ℚ) - (bubbles.length : ℚ) / 2) * 0.8
      let y : ℚ := 2.8
      [ .shape "ellipse" (x - size / 2) (y - size / 2) size size
          (some DESIGNcolors.background) (some DESIGNcolors.textPrimary),
        .text ib.2.label (x - 1) (y - 0.2) 2 0.4 DESIGNcolors.textPrimary ])

/-- The primitives emitted for one arrow step (lines 775–835):
`aw = 9 / stepCount` is the per-step width; the source's `if (!isLast)`
with `isLast = (idx === stepCount - 1)` is written with the branches
swapped. -/
def arrowStepPrims (aw : ℚ) (stepCount : ℕ) (istep : ℕ × ArrowStep) : List Prim :=
  let idx := istep.1
  let x : ℚ := 0.5 + idx * aw
  let y : ℚ := 2.2
  (if idx = stepCount - 1 then
    [ .shape "rect" x y (aw - 0.1) 1.2 (some DESIGNcolors.textPrimary) none ]
  else
    [ .shape "rect" x y (aw - 0.3) 1.2
        (some (if idx % 2 = 0 then DESIGNcolors.textPrimary else DESIGNcolors.lightGray)) none,
      .shape "triangle" (x + aw - 0.5) (y - 0.2) 0.4 1.6
        (some (if idx % 2 = 0 then DESIGNcolors.textPrimary else DESIGNcolors.lightGray)) none ])
  ++ [ .text istep.2.label (x + 0.1) (y + 0.2) (aw - 0.4) 0.4
        (if idx % 2 = 0 then DESIGNcolors.background else DESIGNcolors.textPrimary) ]
  ++ (match istep.2.description with
      | some d =>
        if d = "" then [] else
          [ .text d (x + 0.1) (y + 0.6) (aw - 0.4) 0.4
              (if idx % 2 = 0 then DESIGNcolors.background else DESIGNcolors.textSecondary) ]
      | none => [])

/-- Embeds `renderArrowStepsSlide` (lines 756–836).  In JavaScript
`9 / stepCount` is `Infinity` for an empty step list; the value is never
read in that case (the loop body does not run), and in the embedding the
total `ℚ` division makes it 0, equally unread. -/
def renderArrowStepsSlide (data : Slide) : List Prim :=
  let steps := data.arrowSteps.getD []
  let stepCount := steps.length
  let arrowWidth : ℚ := 9 / (stepCount : ℚ)
  [.text data.title 0.5 0.3 9 0.7 DESIGNcolors.textPrimary]
  ++ steps.enum.flatMap (arrowStepPrims arrowWidth stepCount)

/-- Embeds `renderFormulaFlowSlide` (lines 841–928): after the title, the function
returns early when `data.formula` is absent. -/
def renderFormulaFlowSlide (data : Slide) : List Prim :=
  [.text data.title 0.5 0.5 9 0.8 DESIGNcolors.textPrimary]
  ++ (match data.formula with
      | none => []
      | some f =>
        [ .text f.left 0.5 2.5 2.2 1 DESIGNcolors.textPrimary,
          .text f.operator 2.7 2.5 1 1 DESIGNcolors.mediumGray,
          .text f.right 3.7 2.5 2.2 1 DESIGNcolors.textPrimary,
          .text "=" 5.9 2.5 1 1 DESIGNcolors.mediumGray,
          .text f.result 6.9 2.5 2.6 1 DESIGNcolors.textPrimary ])

/-- The ten tags of the `LayoutType` union. -/
def recognizedLayouts : List String :=
  ["title", "data-emphasis", "three-columns", "two-columns", "timeline",
   "bullet-points", "network-diagram", "bubble-chart", "arrow-steps", "formula-flow"]

/-- The `switch (slideData.layoutType)` dispatch of `createPptx`
(lines 272–305); the `default` case renders bullet points. -/
def renderSlideBody (jsCos jsSin : ℚ → ℚ) (jsPi : ℚ) (data : Slide) : List Prim :=
  match data.layoutType with
  | "title" => renderTitleSlide data
  | "data-emphasis" => renderDataEmphasisSlide data
  | "three-columns" => renderThreeColumnsSlide data
  | "two-columns" => renderTwoColumnsSlide data
  | "timeline" => renderTimelineSlide data
  | "network-diagram" => renderNetworkDiagramSlide jsCos jsSin jsPi data
  | "bubble-chart" => renderBubbleChartSlide data
  | "arrow-steps" => renderArrowStepsSlide data
  | "formula-flow" => renderFormulaFlowSlide data
  | "bullet-points" => renderBulletPointsSlide data
  | _ => renderBulletPointsSlide data

/-- JavaScript truncating conversion toward zero (used to model `%`). -/
def jsTrunc (q : ℚ) : ℤ := if 0 ≤ q then ⌊q⌋ else -⌊-q⌋

/-- JavaScript `%` on numbers: remainder with the sign of the dividend. -/
def jsMod (a b : ℚ) : ℚ := a - b * jsTrunc (a / b)

/-- Embeds `s.toString().padStart(n, c)`. -/
def padStart (s : String) (n : ℕ) (c : Char) : String :=
  String.mk (List.replicate (n - s.length) c) ++ s

/-- Embeds `formatTime` (lines 930–934): `Math.floor(seconds / 60)` and
`Math.floor(seconds % 60)`, both rendered zero-padded to width 2. -/
def formatTime (seconds : ℚ) : String :=
  let mins : ℤ := ⌊seconds / 60⌋
  let secs : ℤ := ⌊jsMod seconds 60⌋
  padStart (toString mins) 2 '0' ++ ":" ++ padStart (toString secs) 2 '0'

/-- The footer text primitive added by `createPptx` for every slide
(lines 308–319). -/
def footerPrim (data : Slide) : Prim :=
  .text (formatTime data.startTime ++ " - " ++ formatTime data.endTime)
    0.5 5.2 2 0.3 DESIGNcolors.textSecondary

/-- One slide as assembled by the `createPptx` loop: the layout body
followed by the footer; speaker notes are attached when truthy and the
auto-advance time is the slide's `duration`.  (File writing is I/O and not
modelled.) -/
structure RenderedSlide where
  prims : List Prim
  notes : Option String
  advanceAfter : ℚ
  deriving DecidableEq, Repr

/-- The body of the `for (const slideData of slides)` loop of `createPptx`
(lines 268–328). -/
def assembleSlide (jsCos jsSin : ℚ → ℚ) (jsPi : ℚ) (data : Slide) : RenderedSlide :=
  { prims := renderSlideBody jsCos jsSin jsPi data ++ [footerPrim data]
    notes := if data.notes = "" then none else some data.notes
    advanceAfter := data.duration }

/-- Embeds `createPptx` (lines 256–336) as the list of assembled slides. -/
def createPptx (jsCos jsSin : ℚ → ℚ) (jsPi : ℚ) (slides : List Slide) : List RenderedSlide :=
  slides.map (assembleSlide jsCos jsSin jsPi)

/-- Modelled from the spec's wording for the footer format (refinement
target, not source code): a zero-padded two-digit decimal rendering. -/
def twoDigit (k : ℕ) : String :=
  if k < 10 then "0" ++ toString k else toString k

/-- Modelled from the spec's wording (refinement target, not source code):
`MM:SS` with minutes `n / 60` and seconds `n % 60`, truncating division. -/
def formatTimeSpec (n : ℕ) : String :=
  twoDigit (n / 60) ++ ":" ++ twoDigit (n % 60)

/-- The `fill.color` of every rectangle primitive, in order. -/
def rectFills (ps : List Prim) : List String :=
  ps.filterMap (fun p =>
    match p with
    | .shape "rect" _ _ _ _ f _ => f
    | _ => none)

/-- A concrete `Math.cos`/`Math.sin` stand-in for witnesses. -/
def constZero : ℚ → ℚ := fun _ => 0

/-- A concrete network-diagram slide: nodes `a`, `b`; one edge `a → b` and
one edge `a → zzz` whose target id is unknown. -/
def cnetSlide : Slide :=
  { id := "n1"
    layoutType := "network-diagram"
    title := "net"
    content := []
    networkNodes := some [{ id := "a", label := "A" }, { id := "b", label := "B" }]
    networkEdges := some [{ «from» := "a", «to» := "b" }, { «from» := "a", «to» := "zzz" }]
    notes := ""
    startTime := 0
    endTime := 0
    duration := 1 }

/-- A concrete slide carrying a tag outside the ten recognized layouts. -/
def cunknownSlide : Slide :=
  { id := "u1"
    layoutType := "mystery"
    title := "t"
    content := ["p"]
    notes := ""
    startTime := 0
    endTime := 0
    duration := 1 }

/-- A concrete formula-flow slide with no `formula` field. -/
def cformulaSlide : Slide :=
  { id := "f1"
    layoutType := "formula-flow"
    title := "f"
    content := []
    formula := none
    notes := ""
    startTime := 0
    endTime := 0
    duration := 1 }

/-- A concrete arrow-steps slide with an empty step list. -/
def cemptyArrowSlide : Slide :=
  { id := "e1"
    layoutType := "arrow-steps"
    title := "empty"
    content := []
    arrowSteps := some []
    notes := ""
    startTime := 0
    endTime := 0
    duration := 1 }

/-- A concrete arrow-steps slide with two steps (final step at odd index). -/
def carrowSlide2 : Slide :=
  { id := "a2"
    layoutType := "arrow-steps"
    title := "steps"
    content := []
    arrowSteps := some [{ label := "s0" }, { label := "s1" }]
    notes := ""
    startTime := 0
    endTime := 0
    duration := 1 }

/-- A concrete arrow-steps slide with three steps. -/
def carrowSlide3 : Slide :=
  { id := "a3"
    layoutType := "arrow-steps"
    title := "steps3"
    content := []
    arrowSteps := some [{ label := "s0" }, { label := "s1" }, { label := "s2" }]
    notes := ""
    startTime := 0
    endTime := 0
    duration := 1 }

end PptxGenerator

namespace TextSegmentation

theorem duration_ge_three (t : String) : 3 ≤ duration t :=
  le_max_left _ _

theorem duration_le_sixty (t : String) : duration t ≤ 60 :=
  max_le (by norm_num) (min_le_left _ _)

theorem atf_length (t : ℤ) (ts : List String) :
    (assignTimestampsFrom t ts).length = ts.length := by
  induction ts generalizing t with
  | nil => rfl
  | cons x rest ih => simp [assignTimestampsFrom, ih]

theorem atf_map_text (t : ℤ) (ts : List String) :
    (assignTimestampsFrom t ts).map Segment.text = ts := by
  induction ts generalizing t with
  | nil => rfl
  | cons x rest ih => simp [assignTimestampsFrom, ih]

theorem atf_getElem? (t : ℤ) (ts : List String) (i : ℕ) (hi : i < ts.length) :
    (assignTimestampsFrom t ts)[i]? =
      some { start := t + ((ts.take i).map duration).sum,
             «end» := t + ((ts.take (i + 1)).map duration).sum,
             text := ts.getD i "" } := by
  induction ts generalizing t i with
  | nil => simp at hi
  | cons x rest ih =>
    cases i with
    | zero => simp [assignTimestampsFrom]
    | succ j =>
      have hj : j < rest.length := by simpa using hi
      simp only [assignTimestampsFrom, List.getElem?_cons_succ, ih (t + duration x) j hj,
        List.take_succ_cons, List.map_cons, List.sum_cons, List.getD_cons_succ]
      congr 2 <;> ring

theorem atf_mem (t : ℤ) (ts : List String) :
    ∀ s ∈ assignTimestampsFrom t ts,
      s.«end» = s.start + duration s.text ∧ 3 ≤ duration s.text ∧ duration s.text ≤ 60 := by
  induction ts generalizing t with
  | nil => simp [assignTimestampsFrom]
  | cons x rest ih =>
    intro s hs
    simp only [assignTimestampsFrom, List.mem_cons] at hs
    rcases hs with rfl | hs
    · exact ⟨rfl, duration_ge_three x, duration_le_sixty x⟩
    · exact ih (t + duration x) s hs

theorem atf_sum_durations (t : ℤ) (ts : List String) :
    ((assignTimestampsFrom t ts).map (fun s => s.«end» - s.start)).sum =
      (ts.map duration).sum := by
  induction ts generalizing t with
  | nil => rfl
  | cons x rest ih => simp [assignTimestampsFrom, ih]

theorem atf_getLast? (t : ℤ) (ts : List String) (h : ts ≠ []) :
    ∃ last, (assignTimestampsFrom t ts).getLast? = some last ∧
      last.«end» = t + (ts.map duration).sum := by
  induction ts generalizing t with
  | nil => exact absurd rfl h
  | cons x rest ih =>
    cases rest with
    | nil =>
      refine ⟨_, rfl, ?_⟩
      simp [assignTimestampsFrom]
    | cons y rest' =>
      obtain ⟨last, hl, he⟩ := ih (t + duration x) (by simp)
      refine ⟨last, ?_, ?_⟩
      · simpa [assignTimestampsFrom] using hl
      · simp [he]; ring

theorem duration_konnichiwa : duration "こんにちは。" = 3 := by
  have h : ("こんにちは。".length : ℚ) = 6 := by norm_num [show "こんにちは。".length = 6 from rfl]
  simp only [duration, durationSeconds, jsRound, CHARS_PER_MINUTE, h]
  norm_num

theorem duration_tsugi : duration "次のテキストです。" = 3 := by
  have h : ("次のテキストです。".length : ℚ) = 9 := by
    norm_num [show "次のテキストです。".length = 9 from rfl]
  simp only [duration, durationSeconds, jsRound, CHARS_PER_MINUTE, h]
  norm_num

theorem assignTimestamps_scenario :
    assignTimestamps ["こんにちは。", "次のテキストです。"] =
      [{ start := 0, «end» := 3, text := "こんにちは。" },
       { start := 3, «end» := 6, text := "次のテキストです。" }] := by
  simp [assignTimestamps, assignTimestampsFrom, duration_konnichiwa, duration_tsugi]

/-- C1: `assignTimestamps` produces one segment per text, in order
(`map text` is the input list); start times grow from segment to segment;
each segment satisfies `end = start + duration` with `3 ≤ duration ≤ 60`;
the durations sum to the end of the last segment; and on
`["こんにちは。", "次のテキストです。"]` segment 0 is `(0, 3)` (duration 3)
and segment 1 starts at 3. -/
theorem assignTimestamps_spec (texts : List String) :
    ((assignTimestamps texts).map Segment.text = texts)
    ∧ (∀ i, i + 1 < (assignTimestamps texts).length →
        ((assignTimestamps texts).getD i default).start <
          ((assignTimestamps texts).getD (i + 1) default).start)
    ∧ (∀ s ∈ assignTimestamps texts,
        s.«end» = s.start + duration s.text ∧ 3 ≤ duration s.text ∧ duration s.text ≤ 60)
    ∧ (∀ last, (assignTimestamps texts).getLast? = some last →
        ((assignTimestamps texts).map (fun s => s.«end» - s.start)).sum = last.«end»)
    ∧ assignTimestamps ["こんにちは。", "次のテキストです。"] =
        [{ start := 0, «end» := 3, text := "こんにちは。" },
         { start := 3, «end» := 6, text := "次のテキストです。" }] := by
  refine ⟨atf_map_text 0 texts, ?_, atf_mem 0 texts, ?_, assignTimestamps_scenario⟩
  · intro i hi
    have hlen := atf_length 0 texts
    have hi' : i + 1 < texts.length := by
      rwa [assignTimestamps, hlen] at hi
    have h1 := atf_getElem? 0 texts i (Nat.lt_of_succ_lt hi')
    have h2 := atf_getElem? 0 texts (i + 1) hi'
    rw [assignTimestamps, List.getD_eq_getElem?_getD, List.getD_eq_getElem?_getD,
      h1, h2, Option.getD_some, Option.getD_some]
    have p : i < (texts.map duration).length := by
      simpa using Nat.lt_of_succ_lt hi'
    have hmt : ∀ k : ℕ, (texts.take k).map duration = (texts.map duration).take k :=
      fun k => List.map_take duration texts k
    simp only [hmt, List.sum_take_succ _ i p]
    have h3 : 3 ≤ (texts.map duration)[i] := by
      rw [List.getElem_map]
      exact duration_ge_three _
    omega
  · intro last hl
    cases texts with
    | nil => simp [assignTimestamps, assignTimestampsFrom] at hl
    | cons x rest =>
      obtain ⟨l', hl', he⟩ := atf_getLast? 0 (x :: rest) (by simp)
      rw [assignTimestamps] at hl
      rw [hl] at hl'
      cases hl'
      rw [assignTimestamps, atf_sum_durations, he]
      ring

/-- Witness for C1 at the scenario input: the start of segment 1 is larger
than the start of segment 0, and the durations sum to the end (6) of the
last segment. -/
theorem assignTimestamps_spec_witness :
    (0 + 1 < (assignTimestamps ["こんにちは。", "次のテキストです。"]).length
      ∧ ((assignTimestamps ["こんにちは。", "次のテキストです。"]).getD 0 default).start <
        ((assignTimestamps ["こんにちは。", "次のテキストです。"]).getD 1 default).start)
    ∧ ((assignTimestamps ["こんにちは。", "次のテキストです。"]).map
        (fun s => s.«end» - s.start)).sum =
      (Segment.mk 3 6 "次のテキストです。").«end» := by
  have hsc := (assignTimestamps_spec ["こんにちは。", "次のテキストです。"]).2.2.2.2
  have hlen : 0 + 1 < (assignTimestamps ["こんにちは。", "次のテキストです。"]).length := by
    rw [hsc]; simp
  refine ⟨⟨hlen, (assignTimestamps_spec _).2.1 0 hlen⟩, ?_⟩
  refine (assignTimestamps_spec ["こんにちは。", "次のテキストです。"]).2.2.2.1 _ ?_
  rw [hsc]; rfl

/-- C4 counterexample: `"a b"` and `"ab"` differ only in whitespace, yet the
raw duration `charCount / CHARS_PER_MINUTE * 60` differs, because the char
count is the plain `text.length`, whitespace included. -/
theorem durationSeconds_whitespace_counterexample :
    durationSeconds "a b" ≠ durationSeconds "ab" := by
  have h1 : ("a b".length : ℚ) = 3 := by norm_num [show "a b".length = 3 from rfl]
  have h2 : ("ab".length : ℚ) = 2 := by norm_num [show "ab".length = 2 from rfl]
  simp only [durationSeconds, CHARS_PER_MINUTE, h1, h2]
  norm_num

/-- C4 (amended): the char count feeding the duration computation is the
full `text.length`, whitespace included, so appending a space strictly
increases the raw duration (by 60/320 of a second). -/
theorem durationSeconds_counts_whitespace (t : String) :
    durationSeconds (t.push ' ') = durationSeconds t + 60 / 320
    ∧ durationSeconds t < durationSeconds (t.push ' ') := by
  have hlen : (t.push ' ').length = t.length + 1 := String.length_push ' '
  constructor
  · simp only [durationSeconds, CHARS_PER_MINUTE, hlen]
    push_cast
    ring
  · simp only [durationSeconds, CHARS_PER_MINUTE, hlen]
    push_cast
    rw [div_mul_eq_mul_div, div_mul_eq_mul_div, div_lt_div_iff₀ (by norm_num) (by norm_num)]
    nlinarith [Nat.cast_nonneg (α := ℚ) t.length]

end TextSegmentation

namespace SlideGenerator

/-- C2 counterexample: the fallback mock deck has 4 slides, not 5–8, and a
response that parses but lacks a `slides` array yields the empty slide
list, not the mock deck. -/
theorem mockDeck_counterexample :
    (getMockSlides "a" "b" "c" "d").length = 4
    ∧ ¬(5 ≤ (getMockSlides "a" "b" "c" "d").length ∧
        (getMockSlides "a" "b" "c" "d").length ≤ 8)
    ∧ geminiHandleResponse (fun _ => "a") (.parsed { slides := none }) = []
    ∧ geminiHandleResponse (fun _ => "a") (.parsed { slides := none }) ≠
        getMockSlides "a" "a" "a" "a" := by
  refine ⟨rfl, by decide, rfl, ?_⟩
  intro h
  exact absurd (congrArg List.length h) (by decide)

/-- C2 (amended): an unparseable response (no JSON-looking substring, or a
parse exception) is replaced by the mock deck; the mock deck is a fixed
sequence of 4 slides with layout types title, data-emphasis, three-columns
and bullet-points, identical across calls except for the freshly generated
ids; a parsed response lacking a `slides` array yields `[]` instead. -/
theorem mockDeck_amended (idGen : ℕ → String) (a b c d a' b' c' d' : String) :
    geminiHandleResponse idGen .noJson =
      getMockSlides (idGen 0) (idGen 1) (idGen 2) (idGen 3)
    ∧ geminiHandleResponse idGen .parseError =
      getMockSlides (idGen 0) (idGen 1) (idGen 2) (idGen 3)
    ∧ (getMockSlides a b c d).length = 4
    ∧ (getMockSlides a b c d).map Slide.layoutType =
        ["title", "data-emphasis", "three-columns", "bullet-points"]
    ∧ (getMockSlides a b c d).map eraseId = (getMockSlides a' b' c' d').map eraseId
    ∧ geminiHandleResponse idGen (.parsed { slides := none }) = [] :=
  ⟨rfl, rfl, rfl, rfl, rfl, rfl⟩

/-- C5: for every raw slide object the built slide's duration is
`max 1 ((endTime ?? 0) - (startTime ?? 0))`, hence at least 1, and the
timestamps themselves receive no other correction than the `?? 0`
defaulting (`x || 0` coincides with `x ?? 0` for numbers, as `0 || 0 = 0`). -/
theorem buildSlide_duration_spec (newId : String) (raw : RawSlide) :
    (buildSlide newId raw).duration = max 1 (raw.endTime.getD 0 - raw.startTime.getD 0)
    ∧ 1 ≤ (buildSlide newId raw).duration
    ∧ (buildSlide newId raw).startTime = raw.startTime.getD 0
    ∧ (buildSlide newId raw).endTime = raw.endTime.getD 0 := by
  have hnum : ∀ v : Option ℚ, jsOrNum v 0 = v.getD 0 := by
    intro v
    cases v with
    | none => rfl
    | some x =>
      by_cases hx : x = 0 <;> simp [jsOrNum, hx]
  refine ⟨?_, le_max_left _ _, hnum _, hnum _⟩
  show max 1 (jsOrNum raw.endTime 0 - jsOrNum raw.startTime 0) = _
  rw [hnum, hnum]

end SlideGenerator

namespace PptxGenerator

open SlideGenerator

theorem lookup_eq_some_of_nodup {β : Type} (l : List (String × β)) (a : String) (b : β)
    (h : (l.map Prod.fst).Nodup) (hmem : (a, b) ∈ l) : l.lookup a = some b := by
  induction l with
  | nil => cases hmem
  | cons hd tl ih =>
    rcases List.mem_cons.mp hmem with heq | hmem'
    · subst heq
      simp [List.lookup]
    · have hk : hd.1 ∉ tl.map Prod.fst := (List.nodup_cons.mp (by simpa using h)).1
      have ha : a ∈ tl.map Prod.fst := List.mem_map_of_mem Prod.fst hmem'
      have hne : (a == hd.1) = false := by
        refine beq_eq_false_iff_ne.mpr fun hcontra => ?_
        exact hk (hcontra ▸ ha)
      obtain ⟨k, v⟩ := hd
      simp only [List.lookup, hne]
      exact ih (by simpa using (List.nodup_cons.mp (by simpa using h)).2) hmem'

theorem lookup_eq_none_of_no_key {β : Type} (l : List (String × β)) (a : String)
    (h : ∀ p ∈ l, p.1 ≠ a) : l.lookup a = none := by
  induction l with
  | nil => rfl
  | cons hd tl ih =>
    have h1 : hd.1 ≠ a := h hd (List.mem_cons_self _ _)
    have hne : (a == hd.1) = false := beq_eq_false_iff_ne.mpr (Ne.symm h1)
    obtain ⟨k, v⟩ := hd
    simp only [List.lookup, hne]
    exact ih fun p hp => h p (List.mem_cons_of_mem _ hp)

theorem lookupPos_keys (jsCos jsSin : ℚ → ℚ) (jsPi : ℚ) (nodes : List NetworkNode) :
    ((nodes.enum.map (fun inode =>
        (inode.2.id, nodeCenter jsCos jsSin jsPi nodes.length inode.1))).map Prod.fst) =
      nodes.map NetworkNode.id := by
  rw [List.map_map]
  have h1 : (Prod.fst ∘ fun inode : ℕ × NetworkNode =>
      (inode.2.id, nodeCenter jsCos jsSin jsPi nodes.length inode.1)) =
      (NetworkNode.id ∘ Prod.snd) := rfl
  rw [h1, ← List.map_map, List.enum_map_snd]

/-- C3: every network-diagram node `i` of `N` is rendered as an ellipse
centred at `(5, 2.8) + 1.8·(cos θ_i, sin θ_i)` with `θ_i = 2π·i/N − π/2`;
when node ids are distinct, the position looked up for a node id is exactly
that node's centre; every edge whose two endpoint ids are found is drawn as
a straight line between the two centres; an edge with an unknown endpoint
id contributes no primitive (and the renderer is total, so nothing is
thrown). -/
theorem renderNetworkDiagram_spec (jsCos jsSin : ℚ → ℚ) (jsPi : ℚ) (data : Slide) :
    (renderNetworkDiagramSlide jsCos jsSin jsPi data =
      Prim.text data.title 0.5 0.3 9 0.7 DESIGNcolors.textPrimary ::
        ((data.networkNodes.getD []).enum.flatMap
            (networkNodePrims jsCos jsSin jsPi (data.networkNodes.getD []).length)
          ++ (data.networkEdges.getD []).filterMap
              (networkEdgeLine jsCos jsSin jsPi (data.networkNodes.getD []))))
    ∧ (∀ (i : ℕ) (nd : NetworkNode), (data.networkNodes.getD [])[i]? = some nd →
        Prim.shape "ellipse"
            (5 + 1.8 * jsCos (2 * jsPi * (i : ℚ) / ((data.networkNodes.getD []).length : ℚ)
              - jsPi / 2) - 0.5)
            (2.8 + 1.8 * jsSin (2 * jsPi * (i : ℚ) / ((data.networkNodes.getD []).length : ℚ)
              - jsPi / 2) - 0.3)
            1 0.6 (some DESIGNcolors.background) (some DESIGNcolors.textPrimary)
          ∈ renderNetworkDiagramSlide jsCos jsSin jsPi data)
    ∧ (((data.networkNodes.getD []).map NetworkNode.id).Nodup →
        ∀ (i : ℕ) (nd : NetworkNode), (data.networkNodes.getD [])[i]? = some nd →
          lookupPos jsCos jsSin jsPi (data.networkNodes.getD []) nd.id =
            some (nodeCenter jsCos jsSin jsPi (data.networkNodes.getD []).length i))
    ∧ (∀ e ∈ data.networkEdges.getD [], ∀ f t,
        lookupPos jsCos jsSin jsPi (data.networkNodes.getD []) e.«from» = some f →
        lookupPos jsCos jsSin jsPi (data.networkNodes.getD []) e.«to» = some t →
        Prim.shape "line" f.1 f.2 (t.1 - f.1) (t.2 - f.2) none (some DESIGNcolors.mediumGray)
          ∈ renderNetworkDiagramSlide jsCos jsSin jsPi data)
    ∧ (∀ e ∈ data.networkEdges.getD [],
        ((∀ nd ∈ data.networkNodes.getD [], nd.id ≠ e.«from») ∨
          (∀ nd ∈ data.networkNodes.getD [], nd.id ≠ e.«to»)) →
        networkEdgeLine jsCos jsSin jsPi (data.networkNodes.getD []) e = none) := by
  refine ⟨rfl, ?_, ?_, ?_, ?_⟩
  · intro i nd h
    show _ ∈ renderNetworkDiagramSlide jsCos jsSin jsPi data
    simp only [renderNetworkDiagramSlide]
    refine List.mem_cons_of_mem _ (List.mem_append_left _ ?_)
    refine List.mem_flatMap.mpr ⟨(i, nd), List.mk_mem_enum_iff_getElem?.mpr h, ?_⟩
    simp [networkNodePrims, nodeCenter]
  · intro hnodup i nd h
    unfold lookupPos
    apply lookup_eq_some_of_nodup
    · rw [List.map_reverse]
      exact List.nodup_reverse.mpr (by rw [lookupPos_keys]; exact hnodup)
    · rw [List.mem_reverse]
      have hm : (i, nd) ∈ (data.networkNodes.getD []).enum :=
        List.mk_mem_enum_iff_getElem?.mpr h
      exact List.mem_map_of_mem _ hm
  · intro e he f t hf ht
    show _ ∈ renderNetworkDiagramSlide jsCos jsSin jsPi data
    simp only [renderNetworkDiagramSlide]
    refine List.mem_cons_of_mem _ (List.mem_append_right _ ?_)
    refine List.mem_filterMap.mpr ⟨e, he, ?_⟩
    simp [networkEdgeLine, hf, ht]
  · intro e he hcase
    have hnone : ∀ nid : String, (∀ nd ∈ data.networkNodes.getD [], nd.id ≠ nid) →
        lookupPos jsCos jsSin jsPi (data.networkNodes.getD []) nid = none := by
      intro nid hno
      unfold lookupPos
      apply lookup_eq_none_of_no_key
      intro p hp
      rw [List.mem_reverse] at hp
      obtain ⟨⟨j, n⟩, hjn, rfl⟩ := List.mem_map.mp hp
      have hn : n ∈ data.networkNodes.getD [] :=
        List.getElem?_mem (List.mk_mem_enum_iff_getElem?.mp hjn)
      exact hno n hn
    rcases hcase with hfrom | hto
    · unfold networkEdgeLine
      rw [hnone e.«from» hfrom]
    · unfold networkEdgeLine
      rw [hnone e.«to» hto]
      cases lookupPos jsCos jsSin jsPi (data.networkNodes.getD []) e.«from» <;> rfl

/-- Witness for C3: on `cnetSlide` the edge to the unknown id `zzz`
produces no primitive, and the id `a` looks up to node 0's centre. -/
theorem renderNetworkDiagram_spec_witness :
    ((NetworkEdge.mk "a" "zzz" ∈ cnetSlide.networkEdges.getD [] ∧
        ∀ nd ∈ cnetSlide.networkNodes.getD [], nd.id ≠ "zzz")
      ∧ networkEdgeLine constZero constZero 0 (cnetSlide.networkNodes.getD [])
          { «from» := "a", «to» := "zzz" } = none)
    ∧ ((cnetSlide.networkNodes.getD [])[0]? = some { id := "a", label := "A" }
      ∧ lookupPos constZero constZero 0 (cnetSlide.networkNodes.getD []) "a" =
          some (nodeCenter constZero constZero 0 (cnetSlide.networkNodes.getD []).length 0)) := by
  refine ⟨⟨⟨by decide, by decide⟩, ?_⟩, by decide, ?_⟩
  · exact (renderNetworkDiagram_spec constZero constZero 0 cnetSlide).2.2.2.2
      { «from» := "a", «to» := "zzz" } (by decide) (Or.inr (by decide))
  · exact (renderNetworkDiagram_spec constZero constZero 0 cnetSlide).2.2.1
      (by decide) 0 { id := "a", label := "A" } (by decide)

/-- C6: a raw slide with a missing `layoutType` is built with
`bullet-points`, and the `createPptx` dispatch sends any tag outside the
ten recognized layout types to the bullet-points renderer. -/
theorem layoutType_defaults_spec (newId : String) (raw : RawSlide)
    (jsCos jsSin : ℚ → ℚ) (jsPi : ℚ) (data : Slide)
    (hraw : raw.layoutType = none)
    (hdata : data.layoutType ∉ recognizedLayouts) :
    (buildSlide newId raw).layoutType = "bullet-points"
    ∧ renderSlideBody jsCos jsSin jsPi data = renderBulletPointsSlide data := by
  constructor
  · simp [buildSlide, jsOrString, hraw]
  · simp only [recognizedLayouts, List.mem_cons, List.not_mem_nil, or_false, not_or] at hdata
    unfold renderSlideBody
    split <;> simp_all

/-- Witness for C6 on the empty raw slide and the tag `"mystery"`. -/
theorem layoutType_defaults_spec_witness :
    (({} : RawSlide).layoutType = none ∧ "mystery" ∉ recognizedLayouts)
    ∧ (buildSlide "id1" {}).layoutType = "bullet-points"
    ∧ renderSlideBody constZero constZero 0 cunknownSlide =
        renderBulletPointsSlide cunknownSlide := by
  refine ⟨⟨rfl, by decide⟩, ?_, ?_⟩
  · exact (layoutType_defaults_spec "id1" {} constZero constZero 0 cunknownSlide rfl
      (by decide)).1
  · exact (layoutType_defaults_spec "id1" {} constZero constZero 0 cunknownSlide rfl
      (by decide)).2

/-- C9: a formula-flow slide whose `formula` is absent renders only the
title block; assembled, only the title and the footer remain; no
operand/operator/equals/result primitive exists and the (total) renderer
throws nothing. -/
theorem formulaFlow_absent_spec (jsCos jsSin : ℚ → ℚ) (jsPi : ℚ) (data : Slide)
    (hf : data.formula = none) (hl : data.layoutType = "formula-flow") :
    renderFormulaFlowSlide data =
      [Prim.text data.title 0.5 0.5 9 0.8 DESIGNcolors.textPrimary]
    ∧ (assembleSlide jsCos jsSin jsPi data).prims =
        [Prim.text data.title 0.5 0.5 9 0.8 DESIGNcolors.textPrimary, footerPrim data] := by
  have h1 : renderFormulaFlowSlide data =
      [Prim.text data.title 0.5 0.5 9 0.8 DESIGNcolors.textPrimary] := by
    simp [renderFormulaFlowSlide, hf]
  have hbody : renderSlideBody jsCos jsSin jsPi data = renderFormulaFlowSlide data := by
    unfold renderSlideBody
    rw [hl]
    rfl
  refine ⟨h1, ?_⟩
  simp [assembleSlide, hbody, h1]

/-- Witness for C9 on `cformulaSlide`. -/
theorem formulaFlow_absent_spec_witness :
    (cformulaSlide.formula = none ∧ cformulaSlide.layoutType = "formula-flow")
    ∧ (assembleSlide constZero constZero 0 cformulaSlide).prims =
        [Prim.text cformulaSlide.title 0.5 0.5 9 0.8 DESIGNcolors.textPrimary,
         footerPrim cformulaSlide] :=
  ⟨⟨rfl, rfl⟩,
    (formulaFlow_absent_spec constZero constZero 0 cformulaSlide rfl rfl).2⟩

/-- C10: an arrow-steps slide whose `arrowSteps` list is empty renders
only the title block; the loop body never runs, so the `9 / stepCount`
division (Infinity in JavaScript, 0 in the total `ℚ` model) is never
used, and nothing is thrown. -/
theorem arrowSteps_empty_spec (jsCos jsSin : ℚ → ℚ) (jsPi : ℚ) (data : Slide)
    (hs : data.arrowSteps.getD [] = []) (hl : data.layoutType = "arrow-steps") :
    renderArrowStepsSlide data =
      [Prim.text data.title 0.5 0.3 9 0.7 DESIGNcolors.textPrimary]
    ∧ renderSlideBody jsCos jsSin jsPi data =
        [Prim.text data.title 0.5 0.3 9 0.7 DESIGNcolors.textPrimary] := by
  have h1 : renderArrowStepsSlide data =
      [Prim.text data.title 0.5 0.3 9 0.7 DESIGNcolors.textPrimary] := by
    simp [renderArrowStepsSlide, hs]
  have hbody : renderSlideBody jsCos jsSin jsPi data = renderArrowStepsSlide data := by
    unfold renderSlideBody
    rw [hl]
    rfl
  exact ⟨h1, hbody.trans h1⟩

/-- C8 counterexample: on a two-step arrow-steps slide the claim
predicates the light fill `EEEEEE` of the odd-index segment (index 1, the
final one); in the code the final segment's rectangle is always filled
`000000`, and no rectangle of this render carries the light fill. -/
theorem renderArrowSteps_counterexample :
    rectFills (renderArrowStepsSlide carrowSlide2) =
      [DESIGNcolors.textPrimary, DESIGNcolors.textPrimary]
    ∧ DESIGNcolors.lightGray ∉ rectFills (renderArrowStepsSlide carrowSlide2) := by
  have h : rectFills (renderArrowStepsSlide carrowSlide2) =
      [DESIGNcolors.textPrimary, DESIGNcolors.textPrimary] := by
    simp [renderArrowStepsSlide, carrowSlide2, arrowStepPrims, rectFills,
      List.enum, List.enumFrom]
  refine ⟨h, ?_⟩
  rw [h]
  decide

/-- C8 (amended): with `N ≥ 1` arrow steps, step `i` starts at
`0.5 + i·(9/N)` (equal-width segments); every non-final step emits a
rectangle plus a triangle arrowhead at its right edge, filled dark
(`000000`) at an even index and light (`EEEEEE`) at an odd index; the
final step emits a single rectangle with no arrowhead, always filled dark
regardless of parity; the label text color alternates with the index
(background-white on even, dark on odd) independently of the final
segment's fill. -/
theorem renderArrowSteps_spec (data : Slide) :
    (renderArrowStepsSlide data =
      Prim.text data.title 0.5 0.3 9 0.7 DESIGNcolors.textPrimary ::
        (data.arrowSteps.getD []).enum.flatMap
          (arrowStepPrims (9 / ((data.arrowSteps.getD []).length : ℚ))
            (data.arrowSteps.getD []).length))
    ∧ (∀ (i : ℕ) (st : ArrowStep), (data.arrowSteps.getD [])[i]? = some st →
        i + 1 < (data.arrowSteps.getD []).length →
        Prim.shape "rect"
            (0.5 + (i : ℚ) * (9 / ((data.arrowSteps.getD []).length : ℚ))) 2.2
            (9 / ((data.arrowSteps.getD []).length : ℚ) - 0.3) 1.2
            (some (if i % 2 = 0 then DESIGNcolors.textPrimary else DESIGNcolors.lightGray))
            none ∈ renderArrowStepsSlide data
        ∧ Prim.shape "triangle"
            (0.5 + (i : ℚ) * (9 / ((data.arrowSteps.getD []).length : ℚ))
              + 9 / ((data.arrowSteps.getD []).length : ℚ) - 0.5) (2.2 - 0.2) 0.4 1.6
            (some (if i % 2 = 0 then DESIGNcolors.textPrimary else DESIGNcolors.lightGray))
            none ∈ renderArrowStepsSlide data)
    ∧ (∀ (i : ℕ) (st : ArrowStep), (data.arrowSteps.getD [])[i]? = some st →
        i + 1 = (data.arrowSteps.getD []).length →
        Prim.shape "rect"
            (0.5 + (i : ℚ) * (9 / ((data.arrowSteps.getD []).length : ℚ))) 2.2
            (9 / ((data.arrowSteps.getD []).length : ℚ) - 0.1) 1.2
            (some DESIGNcolors.textPrimary) none ∈ renderArrowStepsSlide data
        ∧ (∀ x y w h f lc, Prim.shape "triangle" x y w h f lc ∉
            arrowStepPrims (9 / ((data.arrowSteps.getD []).length : ℚ))
              (data.arrowSteps.getD []).length (i, st)))
    ∧ (∀ (i : ℕ) (st : ArrowStep), (data.arrowSteps.getD [])[i]? = some st →
        Prim.text st.label
            (0.5 + (i : ℚ) * (9 / ((data.arrowSteps.getD []).length : ℚ)) + 0.1) (2.2 + 0.2)
            (9 / ((data.arrowSteps.getD []).length : ℚ) - 0.4) 0.4
            (if i % 2 = 0 then DESIGNcolors.background else DESIGNcolors.textPrimary)
          ∈ renderArrowStepsSlide data) := by
  refine ⟨rfl, ?_, ?_, ?_⟩
  · intro i st h hlt
    have hmemE : (i, st) ∈ (data.arrowSteps.getD []).enum :=
      List.mk_mem_enum_iff_getElem?.mpr h
    have hne : ¬(i = (data.arrowSteps.getD []).length - 1) := by omega
    constructor
    · show _ ∈ renderArrowStepsSlide data
      simp only [renderArrowStepsSlide]
      refine List.mem_cons_of_mem _ (List.mem_flatMap.mpr ⟨(i, st), hmemE, ?_⟩)
      simp only [arrowStepPrims]
      rw [if_neg hne]
      exact List.mem_append.mpr (Or.inl (List.mem_append.mpr
        (Or.inl (List.mem_cons_self _ _))))
    · show _ ∈ renderArrowStepsSlide data
      simp only [renderArrowStepsSlide]
      refine List.mem_cons_of_mem _ (List.mem_flatMap.mpr ⟨(i, st), hmemE, ?_⟩)
      simp only [arrowStepPrims]
      rw [if_neg hne]
      exact List.mem_append.mpr (Or.inl (List.mem_append.mpr
        (Or.inl (List.mem_cons_of_mem _ (List.mem_cons_self _ _)))))
  · intro i st h heq1
    have hmemE : (i, st) ∈ (data.arrowSteps.getD []).enum :=
      List.mk_mem_enum_iff_getElem?.mpr h
    have heq : i = (data.arrowSteps.getD []).length - 1 := by omega
    constructor
    · show _ ∈ renderArrowStepsSlide data
      simp only [renderArrowStepsSlide]
      refine List.mem_cons_of_mem _ (List.mem_flatMap.mpr ⟨(i, st), hmemE, ?_⟩)
      simp only [arrowStepPrims]
      rw [if_pos heq]
      exact List.mem_append.mpr (Or.inl (List.mem_append.mpr
        (Or.inl (List.mem_cons_self _ _))))
    · intro x y w h' f lc hmem
      simp only [arrowStepPrims] at hmem
      rw [if_pos heq] at hmem
      rcases List.mem_append.mp hmem with hmem' | hdesc
      · rcases List.mem_append.mp hmem' with hrect | hlabel
        · simp at hrect
        · simp at hlabel
      · rcases hdesc' : st.description with _ | d
        · rw [hdesc'] at hdesc
          simp at hdesc
        · rw [hdesc'] at hdesc
          by_cases hde : d = ""
          · simp [hde] at hdesc
          · simp [hde] at hdesc
  · intro i st h
    have hmemE : (i, st) ∈ (data.arrowSteps.getD []).enum :=
      List.mk_mem_enum_iff_getElem?.mpr h
    show _ ∈ renderArrowStepsSlide data
    simp only [renderArrowStepsSlide]
    refine List.mem_cons_of_mem _ (List.mem_flatMap.mpr ⟨(i, st), hmemE, ?_⟩)
    simp only [arrowStepPrims]
    by_cases hi : i = (data.arrowSteps.getD []).length - 1
    · rw [if_pos hi]
      exact List.mem_append.mpr (Or.inl (List.mem_append.mpr
        (Or.inr (List.mem_singleton.mpr rfl))))
    · rw [if_neg hi]
      exact List.mem_append.mpr (Or.inl (List.mem_append.mpr
        (Or.inr (List.mem_singleton.mpr rfl))))

/-- Witness for C8 on `carrowSlide3`: the light fill of the odd non-final
step 1, and the absence of a triangle in the final step 2. -/
theorem renderArrowSteps_spec_witness :
    ((carrowSlide3.arrowSteps.getD [])[1]? = some { label := "s1" }
      ∧ 1 + 1 < (carrowSlide3.arrowSteps.getD []).length)
    ∧ Prim.shape "rect"
        (0.5 + ((1 : ℕ) : ℚ) * (9 / ((carrowSlide3.arrowSteps.getD []).length : ℚ))) 2.2
        (9 / ((carrowSlide3.arrowSteps.getD []).length : ℚ) - 0.3) 1.2
        (some (if 1 % 2 = 0 then DESIGNcolors.textPrimary else DESIGNcolors.lightGray)) none
        ∈ renderArrowStepsSlide carrowSlide3
    ∧ ((carrowSlide3.arrowSteps.getD [])[2]? = some { label := "s2" }
      ∧ 2 + 1 = (carrowSlide3.arrowSteps.getD []).length)
    ∧ (∀ x y w h f lc, Prim.shape "triangle" x y w h f lc ∉
        arrowStepPrims (9 / ((carrowSlide3.arrowSteps.getD []).length : ℚ))
          (carrowSlide3.arrowSteps.getD []).length (2, { label := "s2" })) := by
  refine ⟨⟨by decide, by decide⟩, ?_, ⟨by decide, by decide⟩, ?_⟩
  · exact ((renderArrowSteps_spec carrowSlide3).2.1 1 { label := "s1" }
      (by decide) (by decide)).1
  · exact ((renderArrowSteps_spec carrowSlide3).2.2.1 2 { label := "s2" }
      (by decide) (by decide)).2

/-- C7: the footer primitive of every assembled slide is
`formatTime(startTime) + " - " + formatTime(endTime)` and is the last
primitive of the slide; for whole-second times below 6000 s (100 min)
`formatTime` is exactly the zero-padded two-digit `MM:SS` rendering with
truncating division and modulo; in particular 65 s and 130 s render as
`"01:05 - 02:10"`. -/
theorem footer_format_spec :
    (∀ (jsCos jsSin : ℚ → ℚ) (jsPi : ℚ) (data : Slide),
        (assembleSlide jsCos jsSin jsPi data).prims.getLast? = some (footerPrim data)
        ∧ footerPrim data =
            Prim.text (formatTime data.startTime ++ " - " ++ formatTime data.endTime)
              0.5 5.2 2 0.3 DESIGNcolors.textSecondary)
    ∧ (∀ n : ℕ, n < 6000 → formatTime (n : ℚ) = formatTimeSpec n)
    ∧ formatTime 65 ++ " - " ++ formatTime 130 = "01:05 - 02:10" := by
  have hpad : ∀ k : ℕ, k < 100 → padStart (toString (Int.ofNat k)) 2 '0' = twoDigit k := by
    decide
  have hmain : ∀ n : ℕ, n < 6000 → formatTime (n : ℚ) = formatTimeSpec n := by
    intro n hn
    have hq : (0 : ℚ) ≤ (n : ℚ) / 60 := by positivity
    have hfloor : ⌊(n : ℚ) / 60⌋ = ((n / 60 : ℕ) : ℤ) := by
      rw [show ((n : ℚ) / 60 : ℚ) = (((n : ℤ) : ℚ) / ((60 : ℕ) : ℚ)) by push_cast; ring,
        Rat.floor_intCast_div_natCast]
      rfl
    have hmod : ((n : ℚ) - 60 * (((n / 60 : ℕ) : ℤ) : ℚ)) = ((n % 60 : ℕ) : ℚ) := by
      have h1 : ((n % 60 + 60 * (n / 60) : ℕ) : ℚ) = (n : ℚ) := by
        rw [Nat.mod_add_div]
      push_cast at h1
      rw [Int.cast_natCast]
      linarith
    have hdivlt : n / 60 < 100 := by omega
    have hmodlt : n % 60 < 100 := by omega
    show padStart (toString ⌊(n : ℚ) / 60⌋) 2 '0' ++ ":"
        ++ padStart (toString ⌊jsMod (n : ℚ) 60⌋) 2 '0' = _
    rw [show jsMod (n : ℚ) 60 = (n : ℚ) - 60 * ((jsTrunc ((n : ℚ) / 60) : ℤ) : ℚ) from rfl,
      show jsTrunc ((n : ℚ) / 60) = ⌊(n : ℚ) / 60⌋ from if_pos hq, hfloor, hmod,
      Int.floor_natCast]
    show padStart (toString (Int.ofNat (n / 60))) 2 '0' ++ ":"
        ++ padStart (toString (Int.ofNat (n % 60))) 2 '0' = _
    rw [hpad _ hdivlt, hpad _ hmodlt]
    rfl
  refine ⟨?_, hmain, ?_⟩
  · intro jsCos jsSin jsPi data
    exact ⟨by simp [assembleSlide], rfl⟩
  · have h65 : formatTime 65 = formatTimeSpec 65 := by
      have := hmain 65 (by norm_num)
      rwa [show ((65 : ℕ) : ℚ) = (65 : ℚ) by norm_num] at this
    have h130 : formatTime 130 = formatTimeSpec 130 := by
      have := hmain 130 (by norm_num)
      rwa [show ((130 : ℕ) : ℚ) = (130 : ℚ) by norm_num] at this
    rw [h65, h130]
    rfl

/-- Witness for C7: the `MM:SS` refinement applied at 65 s. -/
theorem footer_format_spec_witness :
    65 < 6000 ∧ formatTime ((65 : ℕ) : ℚ) = formatTimeSpec 65 :=
  ⟨by decide, footer_format_spec.2.1 65 (by decide)⟩

/-- Witness for C10 on `cemptyArrowSlide`. -/
theorem arrowSteps_empty_spec_witness :
    (cemptyArrowSlide.arrowSteps.getD [] = []
      ∧ cemptyArrowSlide.layoutType = "arrow-steps")
    ∧ renderArrowStepsSlide cemptyArrowSlide =
        [Prim.text cemptyArrowSlide.title 0.5 0.3 9 0.7 DESIGNcolors.textPrimary] :=
  ⟨⟨rfl, rfl⟩,
    (arrowSteps_empty_spec constZero constZero 0 cemptyArrowSlide rfl rfl).1⟩

end PptxGenerator
